import Mathlib

/-!
Verification of the F1 Safety Rating Tracker core against its specification.

The development shallowly embeds the three core components of the program:

* the telemetry decoder (src/adapters/f12019_adapter.py),
* the safety-rating engine (src/core/sr_engine.py),
* the session-lifecycle manager (src/core/session_manager.py).

Python floats are modelled as exact rationals, raw datagrams as lists of
byte values, and in-place mutation as explicit state passing.  An uncaught
Python exception is modelled by a distinguished result constructor.
-/

set_option maxRecDepth 100000

/-- Result of running a piece of Python code: either a value, or an uncaught
Python exception propagating out of it. -/
inductive PyResult (α : Type) where
  | ok : α → PyResult α
  | exn : PyResult α
deriving DecidableEq, Repr

/-- Unified telemetry state across games, mirroring the RaceState dataclass of
src/adapters/base_adapter.py.  Float fields are modelled as rationals. -/
structure RaceState where
  session_uid : Nat
  session_type : Nat
  session_time : ℚ
  game_paused : Bool
  track_id : Int
  current_lap : Nat
  is_off_track : Bool
  front_left_damage : ℚ
  front_right_damage : ℚ
  rear_left_damage : ℚ
  rear_right_damage : ℚ
  timestamp : ℚ
deriving DecidableEq, Repr

/-- Decoder instance state: the mutable last-known snapshot of
F12019Adapter.__init__ (src/adapters/f12019_adapter.py line 16). -/
structure F12019Adapter where
  last_race_state : Option RaceState
deriving DecidableEq, Repr

/-- A fresh adapter, as built by F12019Adapter.__init__. -/
def F12019Adapter.init : F12019Adapter := { last_race_state := none }

/-- Byte i of a datagram.  Every use below is guarded by a length check in the
source, so the default value is never produced on the guarded reads. -/
def getByte (data : List Nat) (i : Nat) : Nat := data.getD i 0

/-- Little-endian unsigned integer assembled from n bytes starting at off. -/
def readLE (data : List Nat) (off : Nat) : Nat → Nat
  | 0 => 0
  | n + 1 => getByte data off + 256 * readLE data (off + 1) n

/-- Signed interpretation of one byte, for the int8 track id field. -/
def i8 (b : Nat) : Int := if b < 128 then (b : Int) else (b : Int) - 256

/-- Exact rational value of an IEEE 754 binary32 bit pattern, used for the
sessionTime header field.  The infinite and NaN patterns (exponent 255) fall
outside the rational model and are mapped to 0; no claim depends on them. -/
def float32ToRat (bits : Nat) : ℚ :=
  let sign : Nat := bits / 2 ^ 31 % 2
  let expo : Nat := bits / 2 ^ 23 % 256
  let frac : Nat := bits % 2 ^ 23
  let mag : ℚ :=
    if expo = 0 then (frac : ℚ) / 2 ^ 149
    else if expo = 255 then 0
    else ((2 ^ 23 + frac : Nat) : ℚ) * 2 ^ expo / 2 ^ 150
  if sign = 1 then -mag else mag

/-- Fields of the packet header, in the order of the format string
of F12019Adapter.parse_packet: struct.unpack of HBBBBQfIB little-endian. -/
structure PacketHeader where
  packet_format : Nat
  game_major_version : Nat
  game_minor_version : Nat
  packet_version : Nat
  packet_id : Nat
  session_uid : Nat
  session_time : ℚ
  frame_identifier : Nat
  player_car_index : Nat
deriving DecidableEq, Repr

/-- Size in bytes demanded by the header format string HBBBBQfIB:
2 + 1 + 1 + 1 + 1 + 8 + 4 + 4 + 1 = 23.  Python struct.unpack raises
struct.error unless the buffer length equals this exactly. -/
def headerFormatSize : Nat := 23

/-- struct.unpack of the header format on a buffer: none models struct.error,
raised whenever the buffer length differs from the format size (the source
passes a 24-byte slice, so this always fails there). -/
def unpackHeader (buf : List Nat) : Option PacketHeader :=
  if buf.length = headerFormatSize then
    some
      { packet_format := readLE buf 0 2
        game_major_version := getByte buf 2
        game_minor_version := getByte buf 3
        packet_version := getByte buf 4
        packet_id := getByte buf 5
        session_uid := readLE buf 6 8
        session_time := float32ToRat (readLE buf 14 4)
        frame_identifier := readLE buf 18 4
        player_car_index := getByte buf 22 }
  else none

/-- F12019Adapter._parse_session_packet (lines 64-124).  Reads the session
type at offset 24, the signed track id at offset 25 and the pause byte at
offset 239, guarded by a 240-byte length check.  If a prior snapshot exists it
is mutated in place (so the stored snapshot changes too); otherwise a fresh
snapshot with defaults is returned and, as in the source, never stored.
The extra arguments are the adapter object and the wall-clock time used for
the timestamp field. -/
def F12019Adapter.parse_session_packet (a : F12019Adapter) (data : List Nat)
    (session_uid : Nat) (session_time : ℚ) (_player_index : Nat) (now : ℚ) :
    PyResult (Option RaceState × F12019Adapter) :=
  if data.length < 240 then .ok (none, a)
  else
    let session_type := getByte data 24
    let track_id := i8 (getByte data 25)
    let game_paused := getByte data 239 = 1
    match a.last_race_state with
    | some st =>
        let st' := { st with
          session_type := session_type
          track_id := track_id
          game_paused := game_paused
          session_time := session_time
          session_uid := session_uid }
        .ok (some st', { a with last_race_state := some st' })
    | none =>
        .ok (some
          { session_uid := session_uid
            session_type := session_type
            session_time := session_time
            game_paused := game_paused
            track_id := track_id
            current_lap := 0
            is_off_track := false
            front_left_damage := 0
            front_right_damage := 0
            rear_left_damage := 0
            rear_right_damage := 0
            timestamp := now }, a)

/-- F12019Adapter._parse_lap_data_packet (lines 126-187).  The per-car record
format ffffffffBBBBBBBBB is eight floats (32 bytes) followed by nine single
bytes, so element 9 (currentLapNum) is the byte at offset + 33 and element 12
(currentLapInvalid) is the byte at offset + 36.  The off-track flag is set
only when the invalid byte equals 1, exactly as in the source. -/
def F12019Adapter.parse_lap_data_packet (a : F12019Adapter) (data : List Nat)
    (session_uid : Nat) (session_time : ℚ) (player_index : Nat) (now : ℚ) :
    PyResult (Option RaceState × F12019Adapter) :=
  if data.length < 24 + (player_index + 1) * 41 then .ok (none, a)
  else
    let offset := 24 + player_index * 41
    let current_lap_num := getByte data (offset + 33)
    let current_lap_invalid := getByte data (offset + 36) = 1
    match a.last_race_state with
    | some st =>
        let st' := { st with
          current_lap := current_lap_num
          is_off_track := current_lap_invalid
          session_time := session_time
          session_uid := session_uid }
        .ok (some st', { a with last_race_state := some st' })
    | none =>
        .ok (some
          { session_uid := session_uid
            session_type := 0
            session_time := session_time
            game_paused := false
            track_id := 0
            current_lap := current_lap_num
            is_off_track := current_lap_invalid
            front_left_damage := 0
            front_right_damage := 0
            rear_left_damage := 0
            rear_right_damage := 0
            timestamp := now }, a)

/-- The 16 values produced by struct.unpack_from of ffffBBBBBBBBBBBB at the
given offset: four float bit patterns followed by twelve bytes. -/
def carDamageFields (data : List Nat) (off : Nat) : List Nat :=
  [readLE data off 4, readLE data (off + 4) 4,
   readLE data (off + 8) 4, readLE data (off + 12) 4,
   getByte data (off + 16), getByte data (off + 17), getByte data (off + 18),
   getByte data (off + 19), getByte data (off + 20), getByte data (off + 21),
   getByte data (off + 22), getByte data (off + 23), getByte data (off + 24),
   getByte data (off + 25), getByte data (off + 26), getByte data (off + 27)]

/-- F12019Adapter._parse_car_damage_packet (lines 189-246).  The source
indexes the 16-element unpack result at positions 20, 21 and 22; those
lookups raise IndexError, which is modelled by the exn branch.  IndexError is
not struct.error, so the surrounding handlers never catch it. -/
def F12019Adapter.parse_car_damage_packet (a : F12019Adapter) (data : List Nat)
    (session_uid : Nat) (session_time : ℚ) (player_index : Nat) (now : ℚ) :
    PyResult (Option RaceState × F12019Adapter) :=
  if data.length < 24 + (player_index + 1) * 39 then .ok (none, a)
  else
    let offset := 24 + player_index * 39
    let damage_data := carDamageFields data offset
    match damage_data.get? 20, damage_data.get? 21, damage_data.get? 22 with
    | some front_left_wing, some front_right_wing, some rear_wing =>
        match a.last_race_state with
        | some st =>
            let st' := { st with
              front_left_damage := (front_left_wing : ℚ)
              front_right_damage := (front_right_wing : ℚ)
              rear_left_damage := (rear_wing : ℚ)
              rear_right_damage := (rear_wing : ℚ)
              session_time := session_time
              session_uid := session_uid }
            .ok (some st', { a with last_race_state := some st' })
        | none =>
            .ok (some
              { session_uid := session_uid
                session_type := 0
                session_time := session_time
                game_paused := false
                track_id := 0
                current_lap := 0
                is_off_track := false
                front_left_damage := (front_left_wing : ℚ)
                front_right_damage := (front_right_wing : ℚ)
                rear_left_damage := (rear_wing : ℚ)
                rear_right_damage := (rear_wing : ℚ)
                timestamp := now }, a)
    | _, _, _ => .exn

/-- F12019Adapter.parse_packet (lines 21-62).  Rejects buffers shorter than
24 bytes, then runs struct.unpack of the 23-byte header format on the first
24 bytes; that unpack always raises struct.error, which the except clause
turns into None, so routing to the three kind-specific parsers below is
unreachable. -/
def F12019Adapter.parse_packet (a : F12019Adapter) (data : List Nat) (now : ℚ) :
    PyResult (Option RaceState × F12019Adapter) :=
  if data.length < 24 then .ok (none, a)
  else
    match unpackHeader (data.take 24) with
    | none => .ok (none, a)
    | some h =>
        if h.packet_id = 1 then
          a.parse_session_packet data h.session_uid h.session_time h.player_car_index now
        else if h.packet_id = 2 then
          a.parse_lap_data_packet data h.session_uid h.session_time h.player_car_index now
        else if h.packet_id = 6 then
          a.parse_car_damage_packet data h.session_uid h.session_time h.player_car_index now
        else .ok (none, a)

/-! ## Safety rating engine (src/core/sr_engine.py) -/

/-- Class boundary bonus constant of SREngine. -/
def BOUNDARY_BONUS : ℚ := 40 / 100

/-- Lower bound of the safety rating scale. -/
def MIN_SR : ℚ := 250 / 100

/-- Upper bound of the safety rating scale. -/
def MAX_SR : ℚ := 799 / 100

/-- Damage increase threshold that flags a collision. -/
def DAMAGE_THRESHOLD : ℚ := 5

/-- Python builtin min on two floats, written executably. -/
def pymin (a b : ℚ) : ℚ := if b < a then b else a

/-- Python builtin max on two floats, written executably. -/
def pymax (a b : ℚ) : ℚ := if a < b then b else a

/-- State of SREngine (src/core/sr_engine.py lines 39-77).  The deque of
per-corner incident points is a list with newest entries at the back; the
session incident counters are split into one field per severity key. -/
structure SREngine where
  window_size : Nat
  sr_multiplier : ℚ
  corner_incidents : List Nat
  current_sr : ℚ
  last_sr : ℚ
  last_lap_number : Nat
  last_off_track_state : Bool
  last_damage_front_left : ℚ
  last_damage_front_right : ℚ
  last_damage_rear_left : ℚ
  last_damage_rear_right : ℚ
  incidents_1x : Nat
  incidents_2x : Nat
  incidents_4x : Nat
  corners_completed : Nat
  current_corner_incidents : Nat
deriving DecidableEq, Repr

/-- SREngine.__init__ with explicit arguments for window_size and
sr_multiplier (their Python defaults are 100 and 0.05). -/
def SREngine.init (window_size : Nat) (sr_multiplier : ℚ) : SREngine :=
  { window_size := window_size
    sr_multiplier := sr_multiplier
    corner_incidents := []
    current_sr := 250 / 100
    last_sr := 250 / 100
    last_lap_number := 0
    last_off_track_state := false
    last_damage_front_left := 0
    last_damage_front_right := 0
    last_damage_rear_left := 0
    last_damage_rear_right := 0
    incidents_1x := 0
    incidents_2x := 0
    incidents_4x := 0
    corners_completed := 0
    current_corner_incidents := 0 }

/-- An engine built with the Python default arguments. -/
def SREngine.default : SREngine := SREngine.init 100 (5 / 100)

/-- Append to a collections.deque with maxlen: the oldest entries are
evicted from the front once the length exceeds maxlen. -/
def dequeAppend (maxlen : Nat) (xs : List Nat) (x : Nat) : List Nat :=
  let ys := xs ++ [x]
  if maxlen < ys.length then ys.drop (ys.length - maxlen) else ys

/-- SREngine._complete_corner (lines 112-119): push the in-progress
accumulator into the window, count the corner, reset the accumulator. -/
def SREngine.complete_corner (e : SREngine) : SREngine :=
  { e with
    corner_incidents := dequeAppend e.window_size e.corner_incidents e.current_corner_incidents
    corners_completed := e.corners_completed + 1
    current_corner_incidents := 0 }

/-- SREngine._add_incident (lines 121-132) for incident type 1x. -/
def SREngine.add_incident_1x (e : SREngine) : SREngine :=
  { e with
    current_corner_incidents := e.current_corner_incidents + 1
    incidents_1x := e.incidents_1x + 1 }

/-- SREngine._add_incident (lines 121-132) for incident type 4x. -/
def SREngine.add_incident_4x (e : SREngine) : SREngine :=
  { e with
    current_corner_incidents := e.current_corner_incidents + 4
    incidents_4x := e.incidents_4x + 1 }

/-- SREngine._calculate_damage_change (lines 134-141). -/
def SREngine.calculate_damage_change (e : SREngine) (rs : RaceState) : ℚ :=
  pymax 0 (rs.front_left_damage - e.last_damage_front_left)
    + pymax 0 (rs.front_right_damage - e.last_damage_front_right)
    + pymax 0 (rs.rear_left_damage - e.last_damage_rear_left)
    + pymax 0 (rs.rear_right_damage - e.last_damage_rear_right)

/-- SREngine._update_damage_state (lines 143-148). -/
def SREngine.update_damage_state (e : SREngine) (rs : RaceState) : SREngine :=
  { e with
    last_damage_front_left := rs.front_left_damage
    last_damage_front_right := rs.front_right_damage
    last_damage_rear_left := rs.rear_left_damage
    last_damage_rear_right := rs.rear_right_damage }

/-- Sum of the incident points currently in the window. -/
def windowSum (xs : List Nat) : Nat := xs.foldr (· + ·) 0

/-- Python int() truncation toward zero: floor for nonnegative values and
ceiling for negative ones. -/
def pyInt (q : ℚ) : Int := if 0 ≤ q then ⌊q⌋ else ⌈q⌉

/-- SREngine._apply_boundary_bonus (lines 196-228): when the integer part
changes, add or subtract the fixed bonus in the direction of travel and
re-clamp to the rating range. -/
def SREngine.apply_boundary_bonus (old_sr new_sr : ℚ) : ℚ :=
  let old_floor := pyInt old_sr
  let new_floor := pyInt new_sr
  if old_floor ≠ new_floor then
    let adjusted := if old_sr < new_sr then new_sr + BOUNDARY_BONUS
      else new_sr - BOUNDARY_BONUS
    pymax MIN_SR (pymin MAX_SR adjusted)
  else new_sr

/-- SREngine._update_sr (lines 150-194).  With an empty window the rating is
set to MIN_SR; otherwise the clamped incremental update followed by the
boundary bonus is applied. -/
def SREngine.update_sr (e : SREngine) : SREngine :=
  if e.corner_incidents = [] then { e with current_sr := MIN_SR }
  else
    let old_sr := e.current_sr
    let total_incidents := windowSum e.corner_incidents
    let corners_tracked := e.corner_incidents.length
    let current_cpi : ℚ :=
      if total_incidents = 0 then 100
      else (corners_tracked : ℚ) / (total_incidents : ℚ)
    let target_cpi : ℚ := 30
    let cpi_ratio := current_cpi / target_cpi
    let sr_delta := (cpi_ratio - 1) * e.sr_multiplier
    let new_sr := old_sr + sr_delta
    let new_sr := pymax MIN_SR (pymin MAX_SR new_sr)
    let new_sr := SREngine.apply_boundary_bonus old_sr new_sr
    { e with current_sr := new_sr, last_sr := old_sr }

/-- SREngine.process_telemetry (lines 79-110): corner boundary detection by
lap change, off-track rising edge (1x), damage-delta collision (4x), damage
state update, then rating recomputation. -/
def SREngine.process_telemetry (e : SREngine) (rs : RaceState) : SREngine :=
  let e :=
    if rs.current_lap ≠ e.last_lap_number ∧ 0 < rs.current_lap then
      { e.complete_corner with last_lap_number := rs.current_lap }
    else e
  let e :=
    if rs.is_off_track ∧ ¬e.last_off_track_state then e.add_incident_1x else e
  let e := { e with last_off_track_state := rs.is_off_track }
  let e :=
    if DAMAGE_THRESHOLD < e.calculate_damage_change rs then e.add_incident_4x
    else e
  let e := e.update_damage_state rs
  e.update_sr

/-- SREngine.reset_session (lines 273-283): clears the per-session counters
and bookkeeping but keeps the window and the rating. -/
def SREngine.reset_session (e : SREngine) : SREngine :=
  { e with
    incidents_1x := 0
    incidents_2x := 0
    incidents_4x := 0
    corners_completed := 0
    current_corner_incidents := 0
    last_lap_number := 0
    last_off_track_state := false }

/-- SREngine.set_sr (lines 285-295): values above MAX_SR are treated as
legacy 0-100 ratings and linearly remapped; the result is clamped into the
rating range and adopted. -/
def SREngine.set_sr (e : SREngine) (sr_value : ℚ) : SREngine :=
  let sr_value :=
    if MAX_SR < sr_value then
      let normalized := sr_value / 100
      MIN_SR + normalized * (MAX_SR - MIN_SR)
    else sr_value
  let clamped := pymax MIN_SR (pymin MAX_SR sr_value)
  { e with current_sr := clamped, last_sr := clamped }

/-! ## Session lifecycle manager (src/core/session_manager.py) -/

/-- SessionState enum of src/core/session_manager.py; only idle and
race_active are ever assigned by the manager logic. -/
inductive SessionState where
  | idle
  | qualifying
  | practice
  | race_starting
  | race_active
  | race_ending
  | race_finished
deriving DecidableEq, Repr

/-- A callback invocation made by the session manager.  The source passes a
placeholder 0.0 rating along with these values, so only the session id and
track id are modelled. -/
inductive SessionEvent where
  | race_start (session_uid : Nat) (track_id : Int)
  | race_end (session_uid : Nat)
deriving DecidableEq, Repr

/-- Pause threshold in seconds before an active race is considered ended. -/
def PAUSE_THRESHOLD : ℚ := 30

/-- Minimum race duration in seconds for a session to be saved. -/
def MIN_RACE_DURATION : ℚ := 60

/-- State of SessionManager (lines 30-53).  Python str(session_uid) values
are modelled by the underlying numbers, which preserves all the equality
comparisons the manager performs. -/
structure SessionManager where
  current_state : SessionState
  active_session_uid : Option Nat
  active_track_id : Option Int
  last_session_type : Option Nat
  race_start_time : Option ℚ
  pause_start_time : Option ℚ
deriving DecidableEq, Repr

/-- SessionManager.__init__. -/
def SessionManager.init : SessionManager :=
  { current_state := .idle
    active_session_uid := none
    active_track_id := none
    last_session_type := none
    race_start_time := none
    pause_start_time := none }

/-- SessionManager._should_start_race (lines 88-105). -/
def SessionManager.should_start_race (m : SessionManager) (session_type : Nat)
    (session_time : ℚ) (session_uid : Nat) : Bool :=
  let is_race_type := session_type == 10
  let has_started := decide (0 < session_time)
  let is_new_session := m.active_session_uid != some session_uid
  let is_not_racing := !(m.current_state == .race_active
    || m.current_state == .race_starting)
  is_race_type && has_started && is_new_session && is_not_racing

/-- SessionManager._should_end_race (lines 107-135). -/
def SessionManager.should_end_race (m : SessionManager) (session_type : Nat)
    (session_uid : Nat) (is_paused : Bool) (current_timestamp : ℚ) : Bool :=
  if m.current_state != .race_active then false
  else if session_type != 10 && m.last_session_type == some 10 then true
  else if some session_uid != m.active_session_uid then true
  else
    match m.pause_start_time, is_paused with
    | some ps, true => decide (PAUSE_THRESHOLD < current_timestamp - ps)
    | _, _ => false

/-- SessionManager._start_race (lines 137-158): enter the active state,
record the session, clear the pause timestamp and notify start. -/
def SessionManager.start_race (m : SessionManager) (session_uid : Nat)
    (track_id : Int) (session_time : ℚ) : SessionManager × List SessionEvent :=
  ({ m with
      current_state := .race_active
      active_session_uid := some session_uid
      active_track_id := some track_id
      race_start_time := some session_time
      pause_start_time := none },
    [.race_start session_uid track_id])

/-- SessionManager._reset (lines 185-191). -/
def SessionManager.reset (m : SessionManager) : SessionManager :=
  { m with
    current_state := .idle
    active_session_uid := none
    active_track_id := none
    race_start_time := none
    pause_start_time := none }

/-- SessionManager._end_race (lines 160-183): a race shorter than the
minimum duration is discarded silently, otherwise the end notification is
emitted; either way the record is cleared. -/
def SessionManager.end_race (m : SessionManager) (session_uid : Nat)
    (session_time : ℚ) : SessionManager × List SessionEvent :=
  match m.race_start_time with
  | some st =>
      if session_time - st < MIN_RACE_DURATION then (m.reset, [])
      else (m.reset, [.race_end session_uid])
  | none => (m.reset, [.race_end session_uid])

/-- SessionManager.process_telemetry (lines 55-86): start detection, end
detection, pause bookkeeping while active, and session-type tracking. -/
def SessionManager.process_telemetry (m : SessionManager) (rs : RaceState) :
    SessionManager × List SessionEvent :=
  let step :=
    if m.should_start_race rs.session_type rs.session_time rs.session_uid then
      m.start_race rs.session_uid rs.track_id rs.session_time
    else if m.should_end_race rs.session_type rs.session_uid rs.game_paused
        rs.timestamp then
      m.end_race rs.session_uid rs.session_time
    else (m, [])
  let m := step.1
  let m :=
    if m.current_state = .race_active then
      if rs.game_paused then
        if m.pause_start_time = none then
          { m with pause_start_time := some rs.timestamp }
        else m
      else { m with pause_start_time := none }
    else m
  ({ m with last_session_type := some rs.session_type }, step.2)

/-! ## Concrete scenario inputs -/

/-- Header bytes of a packet with the given packet id: format 2019 little
endian, version bytes, then zero session id, session time bits, frame counter
and player index 0.  One padding byte is appended so that the type-specific
payload starts at offset 24, the layout the kind-specific parsers assume. -/
def headerBytes (pid : Nat) : List Nat :=
  [227, 7, 1, 0, 1, pid] ++ List.replicate 18 0

/-- A well-formed type-1 session packet: session type 10 (race) at offset 24,
track id 16 at offset 25, unpaused byte at offset 239; 240 bytes total. -/
def sessionPacket : List Nat :=
  headerBytes 1 ++ [10, 16] ++ List.replicate 213 0 ++ [0]

/-- Player lap-data record with the given currentLapNum and
currentLapInvalid bytes: eight zero floats, then carPosition 1, the lap
number, pitStatus 0, sector 0, the invalid byte, penalties 0, gridPosition 1,
driverStatus 2, resultStatus 0. -/
def lapRecord (lapNum invalid : Nat) : List Nat :=
  List.replicate 32 0 ++ [1, lapNum, 0, 0, invalid, 0, 1, 2, 0]

/-- A well-formed type-2 lap-data packet for player index 0 with lap number 3
and lap-invalid byte 1, followed by 19 zeroed car records. -/
def lapPacket : List Nat :=
  headerBytes 2 ++ lapRecord 3 1 ++ List.replicate (41 * 19) 0

/-- The same lap-data packet with lap-invalid byte 2 instead of 1. -/
def lapPacketInvalid2 : List Nat :=
  headerBytes 2 ++ lapRecord 3 2 ++ List.replicate (41 * 19) 0

/-- A well-formed type-6 car-damage packet for player index 0: twenty zeroed
39-byte records after the header. -/
def damagePacket : List Nat :=
  headerBytes 6 ++ List.replicate (39 * 20) 0

/-- A clean snapshot on the given lap: no off-track flag and no damage. -/
def cleanState (lap : Nat) : RaceState :=
  { session_uid := 1
    session_type := 10
    session_time := (lap : ℚ)
    game_paused := false
    track_id := 16
    current_lap := lap
    is_off_track := false
    front_left_damage := 0
    front_right_damage := 0
    rear_left_damage := 0
    rear_right_damage := 0
    timestamp := (lap : ℚ) }

/-- The default engine after n consecutive clean corner-completing snapshots:
snapshot k carries lap number k, so every step completes one clean corner. -/
def runClean : Nat → SREngine
  | 0 => SREngine.default
  | n + 1 => (runClean n).process_telemetry (cleanState (n + 1))

/-- A manager tracking an active race that started at session time 0. -/
def shortRaceManager : SessionManager :=
  { current_state := .race_active
    active_session_uid := some 1
    active_track_id := some 16
    last_session_type := some 10
    race_start_time := some 0
    pause_start_time := none }

/-- A snapshot whose session type has moved away from the race code after
only 30 seconds of session time. -/
def endingSnapshot : RaceState :=
  { session_uid := 1
    session_type := 5
    session_time := 30
    game_paused := false
    track_id := 16
    current_lap := 2
    is_off_track := false
    front_left_damage := 0
    front_right_damage := 0
    rear_left_damage := 0
    rear_right_damage := 0
    timestamp := 100 }

/-- States of the rating engine reachable from initialization through the
engine operations: processing a snapshot, importing a rating and session
reset. -/
inductive SRReachable : SREngine → Prop where
  | init : ∀ ws mult, SRReachable (SREngine.init ws mult)
  | process : ∀ e rs, SRReachable e → SRReachable (e.process_telemetry rs)
  | set : ∀ e v, SRReachable e → SRReachable (e.set_sr v)
  | reset : ∀ e, SRReachable e → SRReachable e.reset_session

/-! ## Helper lemmas -/

theorem pymax_le_left (a b : ℚ) : a ≤ pymax a b := by
  unfold pymax; split <;> linarith

theorem clamp_range (x : ℚ) :
    MIN_SR ≤ pymax MIN_SR (pymin MAX_SR x)
    ∧ pymax MIN_SR (pymin MAX_SR x) ≤ MAX_SR := by
  unfold pymax pymin MIN_SR MAX_SR
  split_ifs <;> constructor <;> linarith

theorem update_sr_corner_incidents (e : SREngine) :
    e.update_sr.corner_incidents = e.corner_incidents := by
  unfold SREngine.update_sr; split <;> rfl

theorem update_sr_corners_completed (e : SREngine) :
    e.update_sr.corners_completed = e.corners_completed := by
  unfold SREngine.update_sr; split <;> rfl

theorem update_sr_last_lap_number (e : SREngine) :
    e.update_sr.last_lap_number = e.last_lap_number := by
  unfold SREngine.update_sr; split <;> rfl

theorem update_sr_of_empty_window (e : SREngine)
    (h : e.corner_incidents = []) : e.update_sr.current_sr = MIN_SR := by
  unfold SREngine.update_sr; rw [if_pos h]

theorem boundary_bonus_range (old_sr new_sr : ℚ) (h1 : MIN_SR ≤ new_sr)
    (h2 : new_sr ≤ MAX_SR) :
    MIN_SR ≤ SREngine.apply_boundary_bonus old_sr new_sr
    ∧ SREngine.apply_boundary_bonus old_sr new_sr ≤ MAX_SR := by
  rw [SREngine.apply_boundary_bonus]
  by_cases h : pyInt old_sr ≠ pyInt new_sr
  · rw [if_pos h]
    exact clamp_range _
  · rw [if_neg h]
    exact ⟨h1, h2⟩

theorem update_sr_range (e : SREngine) :
    MIN_SR ≤ e.update_sr.current_sr ∧ e.update_sr.current_sr ≤ MAX_SR := by
  rw [SREngine.update_sr]
  by_cases h : e.corner_incidents = []
  · rw [if_pos h]
    refine ⟨le_refl _, ?_⟩
    rw [MIN_SR, MAX_SR]; norm_num
  · rw [if_neg h]
    exact boundary_bonus_range _ _ (clamp_range _).1 (clamp_range _).2

theorem process_telemetry_as_update_sr (e : SREngine) (rs : RaceState) :
    ∃ x : SREngine, e.process_telemetry rs = x.update_sr := ⟨_, rfl⟩

theorem process_corner_spec (e : SREngine) (rs : RaceState) :
    ((rs.current_lap ≠ e.last_lap_number ∧ 0 < rs.current_lap) →
      (e.process_telemetry rs).corners_completed = e.corners_completed + 1
      ∧ (e.process_telemetry rs).corner_incidents
          = dequeAppend e.window_size e.corner_incidents e.current_corner_incidents
      ∧ (e.process_telemetry rs).last_lap_number = rs.current_lap)
    ∧ (¬(rs.current_lap ≠ e.last_lap_number ∧ 0 < rs.current_lap) →
      (e.process_telemetry rs).corners_completed = e.corners_completed
      ∧ (e.process_telemetry rs).corner_incidents = e.corner_incidents) := by
  constructor
  · intro h
    simp only [SREngine.process_telemetry, if_pos h]
    split_ifs <;>
      simp [update_sr_corners_completed, update_sr_corner_incidents,
        update_sr_last_lap_number, SREngine.complete_corner,
        SREngine.add_incident_1x, SREngine.add_incident_4x,
        SREngine.update_damage_state]
  · intro h
    simp only [SREngine.process_telemetry, if_neg h]
    split_ifs <;>
      simp [update_sr_corners_completed, update_sr_corner_incidents,
        update_sr_last_lap_number, SREngine.complete_corner,
        SREngine.add_incident_1x, SREngine.add_incident_4x,
        SREngine.update_damage_state]

/-! ## Claim theorems -/

/-- C1: the specified merge of consecutive packets of different kinds never
happens in the code.  Decoding a type-2 packet followed by a type-1 packet
through one decoder instance yields None for both (the header unpack always
raises struct.error, turned into None), and even the kind-specific parsers,
called directly as the routing intends, never store the snapshot they
return: the adapter state stays empty, so the snapshot produced for the
second packet starts from zero defaults (current_lap 0) instead of
retaining the current_lap 3 established by the first packet. -/
theorem adapter_no_merge_across_packets :
    F12019Adapter.init.parse_packet lapPacket 0 = .ok (none, F12019Adapter.init)
    ∧ F12019Adapter.init.parse_packet sessionPacket 0
        = .ok (none, F12019Adapter.init)
    ∧ F12019Adapter.init.parse_lap_data_packet lapPacket 0 0 0 0
        = .ok (some
          { session_uid := 0, session_type := 0, session_time := 0
            game_paused := false, track_id := 0, current_lap := 3
            is_off_track := true, front_left_damage := 0
            front_right_damage := 0, rear_left_damage := 0
            rear_right_damage := 0, timestamp := 0 }, F12019Adapter.init)
    ∧ F12019Adapter.init.parse_session_packet sessionPacket 0 0 0 0
        = .ok (some
          { session_uid := 0, session_type := 10, session_time := 0
            game_paused := false, track_id := 16, current_lap := 0
            is_off_track := false, front_left_damage := 0
            front_right_damage := 0, rear_left_damage := 0
            rear_right_damage := 0, timestamp := 0 }, F12019Adapter.init) := by
  with_unfolding_all decide

/-- C2: decoding a well-formed type-6 car-damage packet long enough for the
player record returns None rather than a snapshot, because the header unpack
always fails; and the car-damage parser itself, reached as the routing
intends, raises an uncaught IndexError by reading positions 20-22 of its
16-element unpack result. -/
theorem parse_packet_type6_no_snapshot :
    F12019Adapter.init.parse_packet damagePacket 0
        = .ok (none, F12019Adapter.init)
    ∧ F12019Adapter.init.parse_car_damage_packet damagePacket 0 0 0 0
        = .exn := by
  with_unfolding_all decide

/-- C5: the specified type-2 scenario fails on the code.  Decoding the
well-formed lap-data packet with player index 0, lap number 3 and
lap-invalid byte 1 returns None, not a snapshot; the lap-data parser called
directly does produce current_lap 3 and is_off_track true for invalid byte
1, but treats the nonzero invalid byte 2 as NOT off-track, since the source
compares the byte with 1 rather than with 0. -/
theorem lap_packet_scenario_eval :
    F12019Adapter.init.parse_packet lapPacket 0 = .ok (none, F12019Adapter.init)
    ∧ (F12019Adapter.init.parse_lap_data_packet lapPacket 0 0 0 0
        = .ok (some
          { session_uid := 0, session_type := 0, session_time := 0
            game_paused := false, track_id := 0, current_lap := 3
            is_off_track := true, front_left_damage := 0
            front_right_damage := 0, rear_left_damage := 0
            rear_right_damage := 0, timestamp := 0 }, F12019Adapter.init))
    ∧ (F12019Adapter.init.parse_lap_data_packet lapPacketInvalid2 0 0 0 0
        = .ok (some
          { session_uid := 0, session_type := 0, session_time := 0
            game_paused := false, track_id := 0, current_lap := 3
            is_off_track := false, front_left_damage := 0
            front_right_damage := 0, rear_left_damage := 0
            rear_right_damage := 0, timestamp := 0 }, F12019Adapter.init)) := by
  with_unfolding_all decide

/-- C3 counterexample: a corner is completed on a lap-number DECREASE as
well.  After processing a snapshot with lap 3, processing a snapshot with
lap 2 still completes a corner (the counter increments) although the lap
number strictly decreased relative to the last observed value 3. -/
theorem corner_on_lap_decrease :
    ((SREngine.default.process_telemetry (cleanState 3)).process_telemetry
        (cleanState 2)).corners_completed
      = (SREngine.default.process_telemetry (cleanState 3)).corners_completed
        + 1
    ∧ (SREngine.default.process_telemetry (cleanState 3)).last_lap_number = 3
    ∧ (cleanState 2).current_lap
        < (SREngine.default.process_telemetry (cleanState 3)).last_lap_number := by
  with_unfolding_all decide

/-- C3 (amended): a corner is completed (the accumulator total is pushed
into the window and the counter increments) if and only if the current lap
number DIFFERS from the last observed lap number and is greater than 0;
equality of lap numbers, or lap 0, leaves the window and counter
untouched. -/
theorem corner_completion_iff_lap_change (e : SREngine) (rs : RaceState) :
    ((e.process_telemetry rs).corners_completed = e.corners_completed + 1
      ↔ (rs.current_lap ≠ e.last_lap_number ∧ 0 < rs.current_lap))
    ∧ ((rs.current_lap ≠ e.last_lap_number ∧ 0 < rs.current_lap) →
      (e.process_telemetry rs).corner_incidents
        = dequeAppend e.window_size e.corner_incidents
            e.current_corner_incidents)
    ∧ (¬(rs.current_lap ≠ e.last_lap_number ∧ 0 < rs.current_lap) →
      (e.process_telemetry rs).corner_incidents = e.corner_incidents) := by
  have hs := process_corner_spec e rs
  refine ⟨⟨fun hc => ?_, fun h => (hs.1 h).1⟩,
    fun h => (hs.1 h).2.1, fun h => (hs.2 h).2⟩
  by_contra h
  have := (hs.2 h).1
  omega

/-- C3 witness: the characterization applied to the default engine and a
clean lap-1 snapshot. -/
theorem corner_completion_iff_lap_change_witness :
    (((SREngine.default.process_telemetry (cleanState 1)).corners_completed
        = SREngine.default.corners_completed + 1
      ↔ ((cleanState 1).current_lap ≠ SREngine.default.last_lap_number
          ∧ 0 < (cleanState 1).current_lap))
    ∧ (((cleanState 1).current_lap ≠ SREngine.default.last_lap_number
          ∧ 0 < (cleanState 1).current_lap) →
      (SREngine.default.process_telemetry (cleanState 1)).corner_incidents
        = dequeAppend SREngine.default.window_size
            SREngine.default.corner_incidents
            SREngine.default.current_corner_incidents)
    ∧ (¬((cleanState 1).current_lap ≠ SREngine.default.last_lap_number
          ∧ 0 < (cleanState 1).current_lap) →
      (SREngine.default.process_telemetry (cleanState 1)).corner_incidents
        = SREngine.default.corner_incidents)) :=
  corner_completion_iff_lap_change SREngine.default (cleanState 1)

/-- C4 counterexample: a rating imported via set_sr IS altered by processing
a snapshot while the window is empty: the recomputation step resets it to
MIN_SR.  Importing 5.0 and processing one snapshot that completes no corner
drops the rating from 5 to 2.5. -/
theorem empty_window_resets_imported_sr :
    (SREngine.default.set_sr 5).current_sr = 5
    ∧ (SREngine.default.set_sr 5).corner_incidents = []
    ∧ ((SREngine.default.set_sr 5).process_telemetry
        (cleanState 0)).current_sr = MIN_SR
    ∧ MIN_SR ≠ (5 : ℚ) := by
  with_unfolding_all decide

/-- C4 (amended): processing a snapshot that completes no corner while the
sliding window holds no entries SETS the rating to MIN_SR (so the prior
rating is preserved only when it already equals MIN_SR). -/
theorem empty_window_recompute_sets_min (e : SREngine) (rs : RaceState)
    (hw : e.corner_incidents = [])
    (hl : ¬(rs.current_lap ≠ e.last_lap_number ∧ 0 < rs.current_lap)) :
    (e.process_telemetry rs).current_sr = MIN_SR := by
  obtain ⟨x, hx⟩ := process_telemetry_as_update_sr e rs
  have h1 := (process_corner_spec e rs).2 hl
  rw [hx, update_sr_corner_incidents] at h1
  rw [hx]
  exact update_sr_of_empty_window x (h1.2.trans hw)

/-- C4 witness: the amended statement applied to a freshly imported rating
of 5.0 and a snapshot on lap 0. -/
theorem empty_window_recompute_sets_min_witness :
    (SREngine.default.set_sr 5).corner_incidents = []
    ∧ ¬((cleanState 0).current_lap
          ≠ (SREngine.default.set_sr 5).last_lap_number
        ∧ 0 < (cleanState 0).current_lap)
    ∧ ((SREngine.default.set_sr 5).process_telemetry
        (cleanState 0)).current_sr = MIN_SR :=
  ⟨rfl, by decide,
    empty_window_recompute_sets_min (SREngine.default.set_sr 5)
      (cleanState 0) rfl (by decide)⟩

/-- C6 counterexample: the legacy remap is NOT applied to every value in
[0, 100].  Importing 5 (which lies in [0, 100] but not above MAX_SR) adopts
5 directly, whereas the remap formula would give 2.7745. -/
theorem set_sr_midrange_not_remapped :
    (SREngine.default.set_sr 5).current_sr = 5
    ∧ MIN_SR + 5 / 100 * (MAX_SR - MIN_SR) ≠ (5 : ℚ) := by
  with_unfolding_all decide

/-- C6 (amended): set_sr linearly remaps only values strictly above MAX_SR
(treated as legacy 0-100 ratings); values at most MAX_SR are adopted
directly after clamping.  The stated endpoints hold: importing 0 yields
MIN_SR (via clamping), importing 100 yields MAX_SR and importing 50 yields
the exact midpoint of the rating range. -/
theorem set_sr_remap_spec (e : SREngine) (v : ℚ) :
    (MAX_SR < v → (e.set_sr v).current_sr
      = pymax MIN_SR (pymin MAX_SR (MIN_SR + v / 100 * (MAX_SR - MIN_SR))))
    ∧ (v ≤ MAX_SR → (e.set_sr v).current_sr = pymax MIN_SR (pymin MAX_SR v))
    ∧ (e.set_sr 0).current_sr = MIN_SR
    ∧ (e.set_sr 100).current_sr = MAX_SR
    ∧ (e.set_sr 50).current_sr = (MIN_SR + MAX_SR) / 2 := by
  refine ⟨fun h => ?_, fun h => ?_, ?_, ?_, ?_⟩
  · simp only [SREngine.set_sr, if_pos h]
  · simp only [SREngine.set_sr, if_neg (not_lt.mpr h)]
  · simp only [SREngine.set_sr]
    norm_num [MIN_SR, MAX_SR, pymin, pymax]
  · simp only [SREngine.set_sr]
    norm_num [MIN_SR, MAX_SR, pymin, pymax]
  · simp only [SREngine.set_sr]
    norm_num [MIN_SR, MAX_SR, pymin, pymax]

/-- C6 witness: the remap characterization applied to the default engine
and the legacy value 100. -/
theorem set_sr_remap_spec_witness :
    ((MAX_SR < (100 : ℚ) → (SREngine.default.set_sr 100).current_sr
      = pymax MIN_SR (pymin MAX_SR (MIN_SR + 100 / 100 * (MAX_SR - MIN_SR))))
    ∧ ((100 : ℚ) ≤ MAX_SR → (SREngine.default.set_sr 100).current_sr
      = pymax MIN_SR (pymin MAX_SR 100))
    ∧ (SREngine.default.set_sr 0).current_sr = MIN_SR
    ∧ (SREngine.default.set_sr 100).current_sr = MAX_SR
    ∧ (SREngine.default.set_sr 50).current_sr = (MIN_SR + MAX_SR) / 2) :=
  set_sr_remap_spec SREngine.default 100

/-- C7: within the rating range, the hysteresis bonus is applied if and only
if the Python integer part (floor, for these positive values) of the new
rating differs from that of the old one; when applied it is a single fixed
BOUNDARY_BONUS added in the direction of travel followed by a re-clamp to
[MIN_SR, MAX_SR], and an upward crossing lands strictly above the crossed
integer boundary. -/
theorem boundary_bonus_hysteresis (old_sr new_sr : ℚ)
    (_h1 : MIN_SR ≤ old_sr) (_h2 : old_sr ≤ MAX_SR)
    (h3 : MIN_SR ≤ new_sr) (h4 : new_sr ≤ MAX_SR) :
    (pyInt old_sr = pyInt new_sr →
      SREngine.apply_boundary_bonus old_sr new_sr = new_sr)
    ∧ (pyInt old_sr ≠ pyInt new_sr → old_sr < new_sr →
      SREngine.apply_boundary_bonus old_sr new_sr
        = pymax MIN_SR (pymin MAX_SR (new_sr + BOUNDARY_BONUS))
      ∧ ((pyInt new_sr : ℚ) < SREngine.apply_boundary_bonus old_sr new_sr))
    ∧ (pyInt old_sr ≠ pyInt new_sr → new_sr < old_sr →
      SREngine.apply_boundary_bonus old_sr new_sr
        = pymax MIN_SR (pymin MAX_SR (new_sr - BOUNDARY_BONUS))) := by
  have h0 : (0 : ℚ) ≤ new_sr := le_trans (by rw [MIN_SR]; norm_num) h3
  have hfl : pyInt new_sr = ⌊new_sr⌋ := if_pos h0
  refine ⟨fun h => ?_, fun h hlt => ?_, fun h hlt => ?_⟩
  · simp only [SREngine.apply_boundary_bonus]
    rw [if_neg (fun hne => hne h)]
  · have heq : SREngine.apply_boundary_bonus old_sr new_sr
        = pymax MIN_SR (pymin MAX_SR (new_sr + BOUNDARY_BONUS)) := by
      simp only [SREngine.apply_boundary_bonus]
      rw [if_pos h, if_pos hlt]
    refine ⟨heq, ?_⟩
    rw [heq, hfl]
    have hb1 : (⌊new_sr⌋ : ℚ) ≤ new_sr := Int.floor_le new_sr
    have h4' : new_sr ≤ 799 / 100 := by rw [MAX_SR] at h4; exact h4
    have h3' : 250 / 100 ≤ new_sr := by rw [MIN_SR] at h3; exact h3
    have hb2 : ⌊new_sr⌋ < (8 : ℤ) := by
      have hq : (⌊new_sr⌋ : ℚ) < 8 := lt_of_le_of_lt hb1 (by linarith)
      exact_mod_cast hq
    have hb3 : (⌊new_sr⌋ : ℚ) ≤ 7 := by
      have hz : ⌊new_sr⌋ ≤ (7 : ℤ) := by omega
      exact_mod_cast hz
    rw [pymax, pymin, BOUNDARY_BONUS, MIN_SR, MAX_SR]
    split_ifs <;> linarith
  · simp only [SREngine.apply_boundary_bonus]
    rw [if_pos h, if_neg (not_lt.mpr hlt.le)]

/-- C7 witness: the hysteresis characterization applied to the upward
crossing from 2.99 to 3.02. -/
theorem boundary_bonus_hysteresis_witness :
    (MIN_SR ≤ (299 / 100 : ℚ) ∧ (299 / 100 : ℚ) ≤ MAX_SR
      ∧ MIN_SR ≤ (302 / 100 : ℚ) ∧ (302 / 100 : ℚ) ≤ MAX_SR)
    ∧ ((pyInt (299 / 100 : ℚ) = pyInt (302 / 100 : ℚ) →
        SREngine.apply_boundary_bonus (299 / 100) (302 / 100) = 302 / 100)
      ∧ (pyInt (299 / 100 : ℚ) ≠ pyInt (302 / 100 : ℚ) →
          (299 / 100 : ℚ) < 302 / 100 →
        SREngine.apply_boundary_bonus (299 / 100) (302 / 100)
          = pymax MIN_SR (pymin MAX_SR (302 / 100 + BOUNDARY_BONUS))
        ∧ ((pyInt (302 / 100 : ℚ) : ℚ)
            < SREngine.apply_boundary_bonus (299 / 100) (302 / 100)))
      ∧ (pyInt (299 / 100 : ℚ) ≠ pyInt (302 / 100 : ℚ) →
          (302 / 100 : ℚ) < 299 / 100 →
        SREngine.apply_boundary_bonus (299 / 100) (302 / 100)
          = pymax MIN_SR (pymin MAX_SR (302 / 100 - BOUNDARY_BONUS)))) :=
  ⟨⟨by with_unfolding_all decide, by with_unfolding_all decide,
    by with_unfolding_all decide, by with_unfolding_all decide⟩,
    boundary_bonus_hysteresis (299 / 100) (302 / 100)
      (by with_unfolding_all decide) (by with_unfolding_all decide)
      (by with_unfolding_all decide) (by with_unfolding_all decide)⟩

/-- C8 counterexample: with the default window capacity (100) and rate
constant (0.05), the rating saturates at MAX_SR long before the 100
consecutive all-clean corners are over: after corner 30 the rating is
exactly MAX_SR and the recomputation for corner 31 leaves it unchanged, so
not every recomputation strictly increases the rating. -/
theorem clean_run_saturates_at_max :
    (runClean 30).current_sr = MAX_SR
    ∧ (runClean 31).current_sr = MAX_SR
    ∧ ¬((runClean 30).current_sr < (runClean 31).current_sr)
    ∧ (runClean 31).corners_completed = 31
    ∧ 31 ≤ 100 := by
  with_unfolding_all decide

/-- C8 (amended): starting from an empty window and the initial rating,
over 100 consecutive all-clean corners with the default window capacity and
rate constant, every recomputation weakly increases the rating, strictly
increases it whenever the rating is still below MAX_SR, and the rating
never exceeds MAX_SR. -/
theorem clean_run_monotone (n : Nat) (h : n < 100) :
    (runClean 0).current_sr = MIN_SR
    ∧ (runClean (n + 1)).current_sr ≤ MAX_SR
    ∧ (runClean n).current_sr ≤ (runClean (n + 1)).current_sr
    ∧ ((runClean n).current_sr < MAX_SR →
        (runClean n).current_sr < (runClean (n + 1)).current_sr) := by
  revert n
  with_unfolding_all decide

/-- C8 witness: the per-step monotonicity statement at the first corner. -/
theorem clean_run_monotone_witness :
    0 < 100
    ∧ ((runClean 0).current_sr = MIN_SR
      ∧ (runClean 1).current_sr ≤ MAX_SR
      ∧ (runClean 0).current_sr ≤ (runClean 1).current_sr
      ∧ ((runClean 0).current_sr < MAX_SR →
          (runClean 0).current_sr < (runClean 1).current_sr)) :=
  ⟨by decide, clean_run_monotone 0 (by decide)⟩

theorem should_start_false_of_active (m : SessionManager) (a : Nat) (b : ℚ)
    (c : Nat) (h : m.current_state = .race_active) :
    m.should_start_race a b c = false := by
  simp [SessionManager.should_start_race, h]

/-- C9: an end condition met while a race is active, with elapsed session
time below the minimum race duration, emits no notification and leaves the
manager idle with the whole session record cleared. -/
theorem short_session_silent_discard (m : SessionManager) (rs : RaceState)
    (st : ℚ)
    (ha : m.current_state = .race_active)
    (hst : m.race_start_time = some st)
    (he : m.should_end_race rs.session_type rs.session_uid rs.game_paused
        rs.timestamp = true)
    (hd : rs.session_time - st < MIN_RACE_DURATION) :
    (m.process_telemetry rs).2 = []
    ∧ (m.process_telemetry rs).1.current_state = .idle
    ∧ (m.process_telemetry rs).1.active_session_uid = none
    ∧ (m.process_telemetry rs).1.active_track_id = none
    ∧ (m.process_telemetry rs).1.race_start_time = none
    ∧ (m.process_telemetry rs).1.pause_start_time = none := by
  have hns := should_start_false_of_active m rs.session_type rs.session_time
    rs.session_uid ha
  simp [SessionManager.process_telemetry, SessionManager.end_race,
    SessionManager.reset, hns, he, hst, hd]

/-- C9 witness: the silent-discard behavior on a concrete active session
whose session type changes away from race after 30 seconds. -/
theorem short_session_silent_discard_witness :
    (shortRaceManager.current_state = .race_active
      ∧ shortRaceManager.race_start_time = some 0
      ∧ shortRaceManager.should_end_race endingSnapshot.session_type
          endingSnapshot.session_uid endingSnapshot.game_paused
          endingSnapshot.timestamp = true
      ∧ endingSnapshot.session_time - 0 < MIN_RACE_DURATION)
    ∧ ((shortRaceManager.process_telemetry endingSnapshot).2 = []
      ∧ (shortRaceManager.process_telemetry endingSnapshot).1.current_state
          = .idle
      ∧ (shortRaceManager.process_telemetry
          endingSnapshot).1.active_session_uid = none
      ∧ (shortRaceManager.process_telemetry endingSnapshot).1.active_track_id
          = none
      ∧ (shortRaceManager.process_telemetry endingSnapshot).1.race_start_time
          = none
      ∧ (shortRaceManager.process_telemetry
          endingSnapshot).1.pause_start_time = none) :=
  ⟨⟨rfl, rfl, by with_unfolding_all decide, by with_unfolding_all decide⟩,
    short_session_silent_discard shortRaceManager endingSnapshot 0 rfl rfl
      (by with_unfolding_all decide) (by with_unfolding_all decide)⟩

/-- C10: every engine state reachable from initialization through snapshot
processing, rating import and session reset keeps the current rating within
the closed interval [MIN_SR, MAX_SR]. -/
theorem sr_invariant_reachable (e : SREngine) (h : SRReachable e) :
    MIN_SR ≤ e.current_sr ∧ e.current_sr ≤ MAX_SR := by
  induction h with
  | init ws mult =>
      refine ⟨le_refl _, ?_⟩
      show MIN_SR ≤ MAX_SR
      rw [MIN_SR, MAX_SR]; norm_num
  | process e rs hr ih =>
      obtain ⟨x, hx⟩ := process_telemetry_as_update_sr e rs
      rw [hx]
      exact update_sr_range x
  | set e v hr ih =>
      exact clamp_range _
  | reset e hr ih =>
      exact ih

/-- C10 witness: the invariant applied to the engine built with the default
constructor arguments. -/
theorem sr_invariant_reachable_witness :
    SRReachable (SREngine.init 100 (5 / 100))
    ∧ MIN_SR ≤ (SREngine.init 100 (5 / 100)).current_sr
    ∧ (SREngine.init 100 (5 / 100)).current_sr ≤ MAX_SR :=
  ⟨SRReachable.init 100 (5 / 100),
    sr_invariant_reachable _ (SRReachable.init 100 (5 / 100))⟩
